import Mathlib

/-!
# Financial Document Analyzer — verification of the asynchronous job pipeline

Shallow embedding of the repository's core: the submission endpoint
(`analyze_document` in `main.py`), the owner upsert (`_get_or_create_user`),
the query defaulting (`_resolve_query`), the Celery worker task
(`analyze_financial_document_task` in `worker_tasks.py`), and the status
endpoint (`get_job_status` in `main.py`).

Modelling conventions:
* The Job Store row for one job id is an `Option Job`; the staged artifact is
  a Boolean `fileExists`; the Task Backend's per-id state is a `CeleryState`
  plus a result string.
* Python string helpers (`strip`, `lower`, `endswith`, membership) are
  re-implemented structurally over the character list so that all definitions
  evaluate by kernel reduction.
* Exceptions are modelled with `Except`: the analysis step `run_crew` is
  opaque and its outcome (a returned string, or a raised/cancelled error with
  a message) is an environment parameter; `celery_app.send_task` likewise.
* Timestamps (`datetime.now`) are abstract `Nat` clock values supplied by the
  environment.
-/

/-- The four status strings the code ever stores in `AnalysisJob.status`
(`"queued"`, `"processing"`, `"completed"`, `"failed"`). -/
inductive Status where
  | queued
  | processing
  | completed
  | failed
deriving DecidableEq, Repr

/-- Celery `AsyncResult.state` values relevant to `get_job_status`. -/
inductive CeleryState where
  | PENDING
  | STARTED
  | RETRY
  | SUCCESS
  | FAILURE
deriving DecidableEq, Repr

/-- `users` table row (`models.User`): autoincrement id, optional name,
optional unique email. -/
structure User where
  id : Nat
  name : Option String
  email : Option String
deriving DecidableEq, Repr

/-- `analysis_jobs` table row (`models.AnalysisJob`); `createdAt`/`updatedAt`
are server-maintained and not read by any modelled operation, so omitted. -/
structure Job where
  jobId : String
  userId : Option Nat
  query : String
  fileName : String
  filePath : String
  status : Status
  analysisText : Option String
  errorMessage : Option String
  completedAt : Option Nat
deriving DecidableEq, Repr

/-- The kwargs of `celery_app.send_task("analyze_financial_document", ...)`. -/
structure TaskPayload where
  query : String
  filePath : String
  originalFilename : String
deriving DecidableEq, Repr

/-! ## Python string helpers, structural over `String.data` -/

/-- The whitespace characters Python's `str.strip()` removes (ASCII subset). -/
def pyIsSpace (c : Char) : Bool :=
  c == ' ' || c == '\t' || c == '\n' || c == '\r' || c == '\x0b' || c == '\x0c'

/-- Python `s.strip()`. -/
def pyStrip (s : String) : String :=
  String.mk (((s.data.dropWhile pyIsSpace).reverse.dropWhile pyIsSpace).reverse)

/-- Python `s.lower()` (ASCII range, which covers the normalizations here). -/
def pyLower (s : String) : String :=
  String.mk (s.data.map Char.toLower)

/-- Python `s.endswith(suffix)`. -/
def pyEndsWith (s suffix : String) : Bool :=
  suffix.data.isSuffixOf s.data

/-- Python `c in s` for a single character. -/
def pyContains (s : String) (c : Char) : Bool :=
  s.data.contains c

/-- Python `s or None` applied to an already-computed string: the empty string
is falsy and becomes `None`. -/
def pyStrOrNone (s : String) : Option String :=
  if s = "" then none else some s

/-- Python truthiness test for an `Optional[str]`: `None` and `""` are falsy. -/
def optStrFalsy : Option String → Bool
  | none => true
  | some s => s == ""

/-! ## `main.py` helpers -/

def DEFAULT_QUERY : String := "Analyze this financial document for investment insights"

/-- `main._resolve_query`: `(query or DEFAULT_QUERY).strip()`, and if that is
empty, `DEFAULT_QUERY`. -/
def _resolve_query (query : Option String) : String :=
  let base : String :=
    match query with
    | none => DEFAULT_QUERY
    | some q => if q = "" then DEFAULT_QUERY else q
  let resolved := pyStrip base
  if resolved = "" then DEFAULT_QUERY else resolved

/-- `main._sanitize_filename`: `re.sub(r"[^A-Za-z0-9._-]", "_", filename)[:120]
or "uploaded.pdf"`. -/
def _sanitize_filename (filename : String) : String :=
  let safeName := String.mk (filename.data.map fun c =>
    if c.isAlphanum || c == '.' || c == '_' || c == '-' then c else '_')
  let truncated := String.mk (safeName.data.take 120)
  if truncated = "" then "uploaded.pdf" else truncated

/-- `(email or "").strip().lower() or None` in `_get_or_create_user`. -/
def normalized_email (email : Option String) : Option String :=
  pyStrOrNone (pyLower (pyStrip (email.getD "")))

/-- `(name or "").strip() or None` in `_get_or_create_user`. -/
def normalized_name (name : Option String) : Option String :=
  pyStrOrNone (pyStrip (name.getD ""))

/-- Autoincrement primary key for a fresh `users` row. -/
def nextUserId (users : List User) : Nat :=
  (users.map (·.id)).foldr max 0 + 1

/-- `main._get_or_create_user`: resolve or create the owner row; returns the
resolved user (if any) and the updated table. -/
def _get_or_create_user (users : List User) (name email : Option String) :
    Option User × List User :=
  let nEmail := normalized_email email
  let nName := normalized_name name
  if nEmail.isNone && nName.isNone then
    (none, users)
  else
    let found : Option User :=
      match nEmail with
      | some e => users.find? fun u => u.email = some e
      | none => none
    match found with
    | some user =>
        if nName.isSome && optStrFalsy user.name then
          (some { user with name := nName },
           users.map fun v => if v.id = user.id then { v with name := nName } else v)
        else
          (some user, users)
    | none =>
        let user : User := { id := nextUserId users, name := nName, email := nEmail }
        (some user, users ++ [user])

/-! ## Submission endpoint (`POST /analyze`) -/

/-- Request parameters plus the environment facts the handler consults:
whether `OPENAI_API_KEY` is set, and the outcome of `celery_app.send_task`
(`.ok` or a raised exception's message). -/
structure SubmitParams where
  filename : String
  fileSize : Nat
  query : String
  userName : Option String
  userEmail : Option String
  keyPresent : Bool
  enqueue : Except String Unit
deriving Repr

/-- HTTP outcome of the handler: a 202 accepted body or an `HTTPException`. -/
inductive SubmitResult where
  | accepted (jobId statusUrl : String)
  | httpError (statusCode : Nat) (detail : String)
deriving DecidableEq, Repr

/-- The state touched by the pipeline, for a single job id: the `users` table,
the Job Store row, the staged artifact, the enqueued task payload (if any),
and the Task Backend's live state/result for the id. -/
structure SysState where
  users : List User
  job : Option Job
  fileExists : Bool
  taskPayload : Option TaskPayload
  backendState : CeleryState
  backendResult : String
deriving Repr

/-- `if user_email and "@" not in user_email` in `analyze_document`. -/
def invalidEmailFormat : Option String → Bool
  | some e => (e != "") && !(pyContains e '@')
  | none => false

/-- `main.analyze_document`: validations, artifact staging, owner upsert, Job
insert with status `"queued"`, Celery enqueue, and the compensating
`except Exception` handler (delete artifact, mark the job failed, re-raise as
a 500). Returns the HTTP result, the new state, and the sequence of status
values the Job Store row takes on (creation and changes). -/
def analyze_document (p : SubmitParams) (jobId : String) (now : Nat)
    (s : SysState) : SubmitResult × SysState × List Status :=
  if p.filename = "" then
    (.httpError 400 "Filename is required", s, [])
  else if pyEndsWith (pyLower p.filename) ".pdf" = false then
    (.httpError 400 "Only PDF files are supported", s, [])
  else if p.keyPresent = false then
    (.httpError 500 "Missing OPENAI_API_KEY environment variable", s, [])
  else
    let safeFilename := _sanitize_filename p.filename
    let filePath := "data/uploads/" ++ jobId ++ "_" ++ safeFilename
    let resolvedQuery := _resolve_query (some p.query)
    -- the upload is copied to `file_path` before any further check
    let s1 : SysState := { s with fileExists := true }
    if p.fileSize = 0 then
      (.httpError 400 "Uploaded PDF is empty", { s1 with fileExists := false }, [])
    else if invalidEmailFormat p.userEmail then
      (.httpError 400 "Invalid user_email format", s1, [])
    else
      let resolved := _get_or_create_user s1.users p.userName p.userEmail
      let dbJob : Job :=
        { jobId := jobId
          userId := resolved.1.map (·.id)
          query := resolvedQuery
          fileName := p.filename
          filePath := filePath
          status := .queued
          analysisText := none
          errorMessage := none
          completedAt := none }
      let s2 : SysState := { s1 with users := resolved.2, job := some dbJob }
      match p.enqueue with
      | .ok _ =>
          (.accepted jobId ("/jobs/" ++ jobId),
           { s2 with taskPayload := some { query := resolvedQuery,
                                           filePath := filePath,
                                           originalFilename := p.filename } },
           [.queued])
      | .error msg =>
          (.httpError 500 ("Error queuing analysis job: " ++ msg),
           { s2 with fileExists := false,
                     job := some { dbJob with
                                     status := .failed,
                                     errorMessage := some ("Queue error: " ++ msg),
                                     completedAt := some now } },
           [.queued, .failed])

/-! ## Worker task (`worker_tasks.analyze_financial_document_task`) -/

/-- Worker-side environment: `OPENAI_API_KEY` presence, the opaque
`run_crew` outcome (`.ok` result text, or `.error` with the raised
exception's message — cooperative cancellation also surfaces as a raised
exception), whether `path.unlink()` raises `OSError`, and the clock. -/
structure WorkerEnv where
  keyPresent : Bool
  crewResult : Except String String
  unlinkRaises : Bool
  now : Nat
deriving Repr

/-- The worker's `finally` block: `if path.exists(): try: path.unlink()
except OSError: pass`. Returns the artifact's existence afterwards and the
error (if any) the block lets escape — always `none`. -/
def artifactCleanup (fileExists unlinkRaises : Bool) : Bool × Option String :=
  if fileExists then
    if unlinkRaises then (true, none) else (false, none)
  else
    (fileExists, none)

/-- `worker_tasks._update_job` restricted to the status field: a no-op when
the row is missing. -/
def _update_job_status (job : Option Job) (st : Status) : Option Job :=
  job.map fun j => { j with status := st }

/-- The worker's `try` body after the `processing` write: `ensure_openai_key`,
the `path.exists()` precondition, then `run_crew`. -/
def workerBody (env : WorkerEnv) (filePath : String) (fileExists : Bool) :
    Except String String :=
  if env.keyPresent = false then
    .error "Missing OPENAI_API_KEY environment variable"
  else if fileExists = false then
    .error ("Uploaded file not found: " ++ filePath)
  else
    env.crewResult

/-- Result of one worker invocation: the Job row, the artifact, the sequence
of status values the row took on during the run, how many times the `finally`
cleanup block ran, the error it let escape (always `none`), and the exception
the task re-raises to Celery (if any). -/
structure WorkerResult where
  job : Option Job
  fileExists : Bool
  statusWrites : List Status
  cleanupRuns : Nat
  cleanupError : Option String
  raised : Option String
deriving Repr

/-- `worker_tasks.analyze_financial_document_task`: write `processing`
unconditionally, run the body, persist the terminal outcome, and always run
the cleanup finalizer. -/
def analyze_financial_document_task (env : WorkerEnv)
    (query filePath originalFilename : String)
    (job : Option Job) (fileExists : Bool) : WorkerResult :=
  let processingWrites : List Status :=
    match job with
    | some j => if j.status = .processing then [] else [.processing]
    | none => []
  let job1 := _update_job_status job .processing
  let cleanup := artifactCleanup fileExists env.unlinkRaises
  match workerBody env filePath fileExists with
  | .ok analysis =>
      { job := job1.map fun j =>
          { j with status := .completed
                   analysisText := some analysis
                   errorMessage := none
                   completedAt := some env.now }
        fileExists := cleanup.1
        statusWrites := processingWrites ++ (if job1.isSome then [Status.completed] else [])
        cleanupRuns := 1
        cleanupError := cleanup.2
        raised := none }
  | .error msg =>
      { job := job1.map fun j =>
          { j with status := .failed
                   errorMessage := some msg
                   completedAt := some env.now }
        fileExists := cleanup.1
        statusWrites := processingWrites ++ (if job1.isSome then [Status.failed] else [])
        cleanupRuns := 1
        cleanupError := cleanup.2
        raised := some msg }

/-! ## Status endpoint (`GET /jobs/{job_id}`) -/

/-- What the status endpoint reads from Celery: `AsyncResult(job_id).state`
and `str(result.result)`. -/
structure StatusEnv where
  backendState : CeleryState
  backendResult : String
deriving Repr

/-- The JSON bodies `get_job_status` can return. -/
inductive JobResponse where
  | notFound
  | brief (jobId : String) (status : Status)
  | completedResponse (jobId query : String) (analysis : Option String)
      (fileProcessed : String) (userId : Option Nat)
  | failedResponse (jobId : String) (error : String) (userId : Option Nat)
deriving DecidableEq, Repr

/-- `main.get_job_status`: look up the row, advisory-promote
`queued → processing` when Celery reports `STARTED`/`RETRY`, then answer from
the row (for a failed row, `db_job.error_message or str(result.result)`).
Returns the response, the (possibly promoted) stored row, and the status
values written. -/
def get_job_status (env : StatusEnv) (jobId : String) (job : Option Job) :
    JobResponse × Option Job × List Status :=
  match job with
  | none => (.notFound, none, [])
  | some dbJob =>
      let dbJob1 :=
        if (env.backendState = .STARTED ∨ env.backendState = .RETRY) ∧
            dbJob.status = .queued
        then { dbJob with status := .processing } else dbJob
      let writes : List Status :=
        if (env.backendState = .STARTED ∨ env.backendState = .RETRY) ∧
            dbJob.status = .queued
        then [.processing] else []
      if dbJob1.status = .queued ∨ dbJob1.status = .processing then
        (.brief jobId dbJob1.status, some dbJob1, writes)
      else if dbJob1.status = .completed then
        (.completedResponse jobId dbJob1.query dbJob1.analysisText dbJob1.fileName
           dbJob1.userId,
         some dbJob1, writes)
      else if dbJob1.status = .failed then
        (.failedResponse jobId
           (match dbJob1.errorMessage with
            | some m => if m = "" then env.backendResult else m
            | none => env.backendResult)
           dbJob1.userId,
         some dbJob1, writes)
      else
        (.brief jobId dbJob1.status, some dbJob1, writes)

/-! ## Operation traces for the lifecycle invariants

One job id, observed over any interleaving of: its submission request
(guarded on the row not existing yet — ids are fresh UUIDs), status polls,
worker deliveries (Celery delivers only an enqueued task, at least once), and
Task-Backend state changes. -/

inductive SysOp where
  | submit (p : SubmitParams) (jobId : String) (now : Nat)
  | poll
  | workerRun (env : WorkerEnv)
  | backendSet (st : CeleryState) (res : String)

/-- Apply one operation; also return the status values written to the row. -/
def applyOp (s : SysState) : SysOp → SysState × List Status
  | .submit p jobId now =>
      match s.job with
      | some _ => (s, [])
      | none =>
          let r := analyze_document p jobId now s
          (r.2.1, r.2.2)
  | .poll =>
      let r := get_job_status
        { backendState := s.backendState, backendResult := s.backendResult }
        (match s.job with | some j => j.jobId | none => "")
        s.job
      ({ s with job := r.2.1 }, r.2.2)
  | .workerRun env =>
      match s.taskPayload with
      | none => (s, [])
      | some payload =>
          let r := analyze_financial_document_task env payload.query
                     payload.filePath payload.originalFilename s.job s.fileExists
          ({ s with job := r.job
                    fileExists := r.fileExists
                    backendState := match r.raised with
                                    | none => .SUCCESS
                                    | some _ => .FAILURE
                    backendResult := match r.raised with
                                     | none => ""
                                     | some m => m },
           r.statusWrites)
  | .backendSet st res =>
      ({ s with backendState := st, backendResult := res }, [])

/-- Run a sequence of operations, collecting the status writes. -/
def stepOps (s : SysState) : List SysOp → SysState × List Status
  | [] => (s, [])
  | op :: ops =>
      let r1 := applyOp s op
      let r2 := stepOps r1.1 ops
      (r2.1, r1.2 ++ r2.2)

/-- Fresh state: no row, no artifact, nothing enqueued, Celery `PENDING`. -/
def initState : SysState :=
  { users := [], job := none, fileExists := false, taskPayload := none,
    backendState := .PENDING, backendResult := "" }

def runOps (ops : List SysOp) : SysState × List Status :=
  stepOps initState ops

/-- Number of worker deliveries in an operation sequence. -/
def workerRunCount : List SysOp → Nat
  | [] => 0
  | .workerRun _ :: ops => workerRunCount ops + 1
  | _ :: ops => workerRunCount ops

/-! ## Concrete scenarios used in the theorems below -/

/-- A well-formed submission: non-empty PDF, key present, enqueue succeeds. -/
def cexSubmitParams : SubmitParams :=
  { filename := "report.pdf", fileSize := 5, query := "q", userName := none,
    userEmail := none, keyPresent := true, enqueue := .ok () }

/-- A first, successful worker delivery. -/
def cexWorkerEnv1 : WorkerEnv :=
  { keyPresent := true, crewResult := .ok "fine", unlinkRaises := false, now := 1 }

/-- A redelivery of the same task after the first run finished. -/
def cexWorkerEnv2 : WorkerEnv :=
  { keyPresent := true, crewResult := .ok "again", unlinkRaises := false, now := 2 }

/-- Submission followed by two deliveries of the worker task (Celery is
at-least-once, so this interleaving is admissible). -/
def cexOps : List SysOp :=
  [.submit cexSubmitParams "j1" 0, .workerRun cexWorkerEnv1,
   .workerRun cexWorkerEnv2]

/-- Submission followed by a single worker delivery. -/
def witnessOps : List SysOp :=
  [.submit cexSubmitParams "j1" 0, .workerRun cexWorkerEnv1]

/-- The row `witnessOps` produces. -/
def witnessJob : Job :=
  { jobId := "j1", userId := none, query := "q", fileName := "report.pdf",
    filePath := "data/uploads/j1_report.pdf", status := .completed,
    analysisText := some "fine", errorMessage := none, completedAt := some 1 }

/-- The row `cexOps` produces: the redelivered worker regressed the completed
row through `processing` to `failed`, leaving both the old result text and a
new error message behind. -/
def cexFinalJob : Job :=
  { jobId := "j1", userId := none, query := "q", fileName := "report.pdf",
    filePath := "data/uploads/j1_report.pdf", status := .failed,
    analysisText := some "fine",
    errorMessage := some "Uploaded file not found: data/uploads/j1_report.pdf",
    completedAt := some 2 }

/-- A failed row whose recorded message is the empty string (a worker-side
`str(exc)` of an exception with no message). -/
def cexFailedJob : Job :=
  { jobId := "j2", userId := none, query := "q", fileName := "a.pdf",
    filePath := "data/uploads/j2_a.pdf", status := .failed,
    analysisText := none, errorMessage := some "", completedAt := some 3 }

/-- A completed row whose staged artifact was already deleted by the first
run — exactly the situation a Celery redelivery of a finished task finds. -/
def c3CompletedJob : Job :=
  { jobId := "j3", userId := none, query := "q", fileName := "a.pdf",
    filePath := "data/uploads/j3_a.pdf", status := .completed,
    analysisText := some "All good", errorMessage := none,
    completedAt := some 10 }

/-- Worker environment for the redelivery: key present, analysis would
succeed if it were reached. -/
def c3Env : WorkerEnv :=
  { keyPresent := true, crewResult := .ok "unused", unlinkRaises := false,
    now := 20 }

/-- A completed row used to witness the terminal-verbatim theorem. -/
def c2WitnessJob : Job :=
  { jobId := "j9", userId := some 7, query := "quarterly?", fileName := "b.pdf",
    filePath := "data/uploads/j9_b.pdf", status := .completed,
    analysisText := some "solid", errorMessage := none, completedAt := some 4 }

/-- A valid submission whose Celery enqueue raises. -/
def c4Params : SubmitParams :=
  { filename := "doc.pdf", fileSize := 3, query := "what changed?",
    userName := some "Ann", userEmail := some "ann@x.com",
    keyPresent := true, enqueue := .error "broker down" }

/-- A submission whose owner email lacks an `@`. -/
def c9Params : SubmitParams :=
  { filename := "doc.pdf", fileSize := 3, query := "q", userName := some "Ann",
    userEmail := some "ann.x.com", keyPresent := true, enqueue := .ok () }

/-- The queued row the accepted submission `cexSubmitParams` inserts. -/
def c10Job : Job :=
  { jobId := "j1", userId := none, query := "q", fileName := "report.pdf",
    filePath := "data/uploads/j1_report.pdf", status := .queued,
    analysisText := none, errorMessage := none, completedAt := none }

/-! ## Lifecycle invariant

`GoodTrace s tr used` enumerates the reachable (row, status-history) pairs
for runs that have delivered the worker task `used` times. -/

abbrev GoodTrace (s : SysState) (tr : List Status) (used : Nat) : Prop :=
  (tr = [] ∧ s.job = none ∧ s.taskPayload = none)
  ∨ (∃ j, s.job = some j ∧ tr = [.queued] ∧ j.status = .queued ∧
      j.analysisText = none ∧ j.errorMessage = none ∧ j.completedAt = none)
  ∨ (∃ j, s.job = some j ∧ tr = [.queued, .failed] ∧ j.status = .failed ∧
      j.analysisText = none ∧ j.errorMessage ≠ none ∧ j.completedAt ≠ none ∧
      s.taskPayload = none)
  ∨ (∃ j, s.job = some j ∧ tr = [.queued, .processing] ∧ j.status = .processing ∧
      j.analysisText = none ∧ j.errorMessage = none ∧ j.completedAt = none)
  ∨ (∃ j, s.job = some j ∧ tr = [.queued, .processing, .completed] ∧
      j.status = .completed ∧ j.analysisText ≠ none ∧ j.errorMessage = none ∧
      j.completedAt ≠ none ∧ 1 ≤ used)
  ∨ (∃ j, s.job = some j ∧ tr = [.queued, .processing, .failed] ∧
      j.status = .failed ∧ j.analysisText = none ∧ j.errorMessage ≠ none ∧
      j.completedAt ≠ none ∧ 1 ≤ used)

/-- The submission handler either leaves the row and the enqueued task
untouched (a validation failure), inserts a `queued` row, or inserts a row
and compensates it to `failed` without enqueuing. -/
theorem analyze_document_spec (p : SubmitParams) (jobId : String) (now : Nat)
    (s : SysState) :
    ((analyze_document p jobId now s).2.2 = [] ∧
      (analyze_document p jobId now s).2.1.job = s.job ∧
      (analyze_document p jobId now s).2.1.taskPayload = s.taskPayload)
    ∨ ((analyze_document p jobId now s).2.2 = [Status.queued] ∧
      ∃ j, (analyze_document p jobId now s).2.1.job = some j ∧
        j.status = .queued ∧ j.analysisText = none ∧ j.errorMessage = none ∧
        j.completedAt = none)
    ∨ ((analyze_document p jobId now s).2.2 = [Status.queued, Status.failed] ∧
      (analyze_document p jobId now s).2.1.taskPayload = s.taskPayload ∧
      ∃ j, (analyze_document p jobId now s).2.1.job = some j ∧
        j.status = .failed ∧ j.analysisText = none ∧ j.errorMessage ≠ none ∧
        j.completedAt ≠ none) := by
  unfold analyze_document
  split
  · exact Or.inl ⟨rfl, rfl, rfl⟩
  · split
    · exact Or.inl ⟨rfl, rfl, rfl⟩
    · split
      · exact Or.inl ⟨rfl, rfl, rfl⟩
      · split
        · exact Or.inl ⟨rfl, rfl, rfl⟩
        · split
          · exact Or.inl ⟨rfl, rfl, rfl⟩
          · cases hq : p.enqueue with
            | ok u =>
                exact Or.inr (Or.inl ⟨rfl, ⟨_, rfl, rfl, rfl, rfl, rfl⟩⟩)
            | error msg =>
                exact Or.inr (Or.inr ⟨rfl, rfl,
                  ⟨_, rfl, rfl, rfl, by simp, by simp⟩⟩)

/-- A worker delivery on a missing row writes nothing. -/
theorem worker_task_none (env : WorkerEnv) (q fp ofn : String) (fe : Bool) :
    (analyze_financial_document_task env q fp ofn none fe).job = none ∧
    (analyze_financial_document_task env q fp ofn none fe).statusWrites = [] := by
  unfold analyze_financial_document_task
  cases hb : workerBody env fp fe <;> simp [_update_job_status]

/-- A worker delivery on an existing row writes `processing` (a change only
when the row was not already processing) and then exactly one terminal
status, with the terminal fields as persisted by `_update_job`. -/
theorem worker_task_spec (env : WorkerEnv) (q fp ofn : String) (j : Job)
    (fe : Bool) :
    ∃ j', (analyze_financial_document_task env q fp ofn (some j) fe).job = some j' ∧
      (analyze_financial_document_task env q fp ofn (some j) fe).statusWrites =
        (if j.status = .processing then [] else [Status.processing]) ++ [j'.status] ∧
      ((j'.status = .completed ∧ j'.analysisText ≠ none ∧ j'.errorMessage = none ∧
          j'.completedAt = some env.now)
        ∨ (j'.status = .failed ∧ j'.analysisText = j.analysisText ∧
          j'.errorMessage ≠ none ∧ j'.completedAt = some env.now)) := by
  unfold analyze_financial_document_task
  cases hb : workerBody env fp fe with
  | ok analysis =>
      refine ⟨{ j with
                  status := Status.completed
                  analysisText := some analysis
                  errorMessage := none
                  completedAt := some env.now }, ?_, ?_, ?_⟩
      · rfl
      · simp [_update_job_status]
      · exact Or.inl ⟨rfl, by simp, rfl, rfl⟩
  | error msg =>
      refine ⟨{ j with
                  status := Status.failed
                  errorMessage := some msg
                  completedAt := some env.now }, ?_, ?_, ?_⟩
      · rfl
      · simp [_update_job_status]
      · exact Or.inr ⟨rfl, rfl, by simp, rfl⟩

/-- The status endpoint leaves a non-queued row untouched and writes nothing. -/
theorem get_job_status_no_promote (env : StatusEnv) (jobId : String) (j : Job)
    (h : j.status ≠ Status.queued) :
    (get_job_status env jobId (some j)).2 = (some j, []) := by
  cases hst : j.status <;> simp [get_job_status, hst] <;> simp [hst] at h

/-- The status endpoint on a queued row either leaves it untouched or
promotes it to processing (when Celery reports `STARTED`/`RETRY`). -/
theorem get_job_status_queued (env : StatusEnv) (jobId : String) (j : Job)
    (h : j.status = Status.queued) :
    (get_job_status env jobId (some j)).2 = (some j, [])
    ∨ (get_job_status env jobId (some j)).2 =
        (some { j with status := Status.processing }, [Status.processing]) := by
  by_cases hb : env.backendState = CeleryState.STARTED ∨ env.backendState = CeleryState.RETRY
  · right; simp [get_job_status, h, hb]
  · left; simp [get_job_status, h, hb]

/-- One operation preserves the lifecycle invariant, within the delivery
budget. -/
theorem applyOp_good (op : SysOp) {s : SysState} {tr : List Status}
    {used : Nat} (h : GoodTrace s tr used)
    (hc : used + workerRunCount [op] ≤ 1) :
    GoodTrace (applyOp s op).1 (tr ++ (applyOp s op).2)
      (used + workerRunCount [op]) := by
  cases op with
  | submit p jobId now =>
      rcases h with ⟨htr, hjob, hpl⟩ | hrest
      · simp only [applyOp, hjob]
        rcases analyze_document_spec p jobId now s with
          ⟨hw, hj, hp2⟩ | ⟨hw, j, hj, hst, ha, he, hcm⟩ |
          ⟨hw, hp2, j, hj, hst, ha, he, hcm⟩
        · exact Or.inl ⟨by rw [hw, htr]; rfl, by rw [hj, hjob], by rw [hp2, hpl]⟩
        · exact Or.inr (Or.inl ⟨j, hj, by rw [hw, htr]; rfl, hst, ha, he, hcm⟩)
        · exact Or.inr (Or.inr (Or.inl
            ⟨j, hj, by rw [hw, htr]; rfl, hst, ha, he, hcm, by rw [hp2, hpl]⟩))
      · have hj : ∃ j, s.job = some j := by
          rcases hrest with ⟨j, hj, -⟩ | ⟨j, hj, -⟩ | ⟨j, hj, -⟩ | ⟨j, hj, -⟩ |
            ⟨j, hj, -⟩ <;> exact ⟨j, hj⟩
        obtain ⟨j, hj⟩ := hj
        simp only [applyOp, hj, List.append_nil]
        exact Or.inr hrest
  | poll =>
      rcases h with ⟨htr, hjob, hpl⟩ | ⟨j, hjob, htr, hst, ha, he, hcm⟩ |
        ⟨j, hjob, htr, hst, ha, he, hcm, hpl⟩ | ⟨j, hjob, htr, hst, ha, he, hcm⟩ |
        ⟨j, hjob, htr, hst, ha, he, hcm, hu⟩ | ⟨j, hjob, htr, hst, ha, he, hcm, hu⟩
      · simp only [applyOp, hjob, get_job_status]
        exact Or.inl ⟨by simp [htr], rfl, hpl⟩
      · simp only [applyOp, hjob]
        rcases get_job_status_queued
            ⟨s.backendState, s.backendResult⟩ j.jobId j hst with hg | hg
        · rw [hg]
          exact Or.inr (Or.inl ⟨j, rfl, by simp [htr], hst, ha, he, hcm⟩)
        · rw [hg]
          exact Or.inr (Or.inr (Or.inr (Or.inl
            ⟨{ j with status := Status.processing }, rfl, by simp [htr], rfl,
             ha, he, hcm⟩)))
      · simp only [applyOp, hjob]
        rw [get_job_status_no_promote ⟨s.backendState, s.backendResult⟩ j.jobId j
          (by simp [hst])]
        exact Or.inr (Or.inr (Or.inl
          ⟨j, rfl, by simp [htr], hst, ha, he, hcm, hpl⟩))
      · simp only [applyOp, hjob]
        rw [get_job_status_no_promote ⟨s.backendState, s.backendResult⟩ j.jobId j
          (by simp [hst])]
        exact Or.inr (Or.inr (Or.inr (Or.inl
          ⟨j, rfl, by simp [htr], hst, ha, he, hcm⟩)))
      · simp only [applyOp, hjob]
        rw [get_job_status_no_promote ⟨s.backendState, s.backendResult⟩ j.jobId j
          (by simp [hst])]
        exact Or.inr (Or.inr (Or.inr (Or.inr (Or.inl
          ⟨j, rfl, by simp [htr], hst, ha, he, hcm, hu⟩))))
      · simp only [applyOp, hjob]
        rw [get_job_status_no_promote ⟨s.backendState, s.backendResult⟩ j.jobId j
          (by simp [hst])]
        exact Or.inr (Or.inr (Or.inr (Or.inr (Or.inr
          ⟨j, rfl, by simp [htr], hst, ha, he, hcm, hu⟩))))
  | workerRun env =>
      have hone : workerRunCount [SysOp.workerRun env] = 1 := rfl
      rw [hone] at hc ⊢
      cases hp : s.taskPayload with
      | none =>
          simp only [applyOp, hp, List.append_nil]
          rcases h with ⟨htr, hjob, hpl⟩ | ⟨j, hjob, htr, hst, ha, he, hcm⟩ |
            ⟨j, hjob, htr, hst, ha, he, hcm, hpl⟩ |
            ⟨j, hjob, htr, hst, ha, he, hcm⟩ |
            ⟨j, hjob, htr, hst, ha, he, hcm, hu⟩ |
            ⟨j, hjob, htr, hst, ha, he, hcm, hu⟩
          · exact Or.inl ⟨htr, hjob, hp⟩
          · exact Or.inr (Or.inl ⟨j, hjob, htr, hst, ha, he, hcm⟩)
          · exact Or.inr (Or.inr (Or.inl ⟨j, hjob, htr, hst, ha, he, hcm, hp⟩))
          · exact Or.inr (Or.inr (Or.inr (Or.inl ⟨j, hjob, htr, hst, ha, he, hcm⟩)))
          · exact Or.inr (Or.inr (Or.inr (Or.inr (Or.inl
              ⟨j, hjob, htr, hst, ha, he, hcm, Nat.le_succ_of_le hu⟩))))
          · exact Or.inr (Or.inr (Or.inr (Or.inr (Or.inr
              ⟨j, hjob, htr, hst, ha, he, hcm, Nat.le_succ_of_le hu⟩))))
      | some payload =>
          rcases h with ⟨htr, hjob, hpl⟩ | ⟨j, hjob, htr, hst, ha, he, hcm⟩ |
            ⟨j, hjob, htr, hst, ha, he, hcm, hpl⟩ |
            ⟨j, hjob, htr, hst, ha, he, hcm⟩ |
            ⟨j, hjob, htr, hst, ha, he, hcm, hu⟩ |
            ⟨j, hjob, htr, hst, ha, he, hcm, hu⟩
          · rw [hpl] at hp; exact Option.noConfusion hp
          · simp only [applyOp, hp, hjob]
            obtain ⟨j', hj', hw, hout⟩ := worker_task_spec env payload.query
              payload.filePath payload.originalFilename j s.fileExists
            rw [hj', hw, hst]
            rcases hout with ⟨hst', ha', he', hcm'⟩ | ⟨hst', ha', he', hcm'⟩
            · exact Or.inr (Or.inr (Or.inr (Or.inr (Or.inl
                ⟨j', rfl, by rw [htr, hst']; simp, hst', ha', he',
                 by simp [hcm'], by omega⟩))))
            · exact Or.inr (Or.inr (Or.inr (Or.inr (Or.inr
                ⟨j', rfl, by rw [htr, hst']; simp, hst', ha'.trans ha, he',
                 by simp [hcm'], by omega⟩))))
          · rw [hpl] at hp; exact Option.noConfusion hp
          · simp only [applyOp, hp, hjob]
            obtain ⟨j', hj', hw, hout⟩ := worker_task_spec env payload.query
              payload.filePath payload.originalFilename j s.fileExists
            rw [hj', hw, hst]
            rcases hout with ⟨hst', ha', he', hcm'⟩ | ⟨hst', ha', he', hcm'⟩
            · exact Or.inr (Or.inr (Or.inr (Or.inr (Or.inl
                ⟨j', rfl, by rw [htr, hst']; simp, hst', ha', he',
                 by simp [hcm'], by omega⟩))))
            · exact Or.inr (Or.inr (Or.inr (Or.inr (Or.inr
                ⟨j', rfl, by rw [htr, hst']; simp, hst', ha'.trans ha, he',
                 by simp [hcm'], by omega⟩))))
          · exact absurd hu (by omega)
          · exact absurd hu (by omega)
  | backendSet st res =>
      simp only [applyOp, List.append_nil]
      exact h

theorem workerRunCount_cons (op : SysOp) (ops : List SysOp) :
    workerRunCount (op :: ops) = workerRunCount [op] + workerRunCount ops := by
  cases op <;> simp [workerRunCount] <;> omega

/-- Any operation sequence within the delivery budget preserves the
lifecycle invariant. -/
theorem stepOps_good (ops : List SysOp) {s : SysState} {tr : List Status}
    {used : Nat} (h : GoodTrace s tr used)
    (hc : used + workerRunCount ops ≤ 1) :
    GoodTrace (stepOps s ops).1 (tr ++ (stepOps s ops).2)
      (used + workerRunCount ops) := by
  induction ops generalizing s tr used with
  | nil => simpa [stepOps, workerRunCount] using h
  | cons op ops ih =>
      have hcons := workerRunCount_cons op ops
      have h1 : used + workerRunCount [op] ≤ 1 := by omega
      have h2 := applyOp_good op h h1
      have h3 : (used + workerRunCount [op]) + workerRunCount ops ≤ 1 := by omega
      have h4 := ih h2 h3
      simp only [stepOps]
      rw [hcons, ← Nat.add_assoc, ← List.append_assoc]
      exact h4

/-- C1 (amended): provided the worker task is delivered at most once for the
job (Celery's at-least-once redelivery excluded), the sequence of status
values the Job record takes on — written by the submission handler, the
worker task, and the status endpoint's promotion — is a subsequence of
`queued, processing, completed` or of `queued, processing, failed`, and in
particular a terminal status is never changed afterwards. -/
theorem job_status_trace_monotonic (ops : List SysOp)
    (h : workerRunCount ops ≤ 1) :
    List.Sublist (runOps ops).2
        [Status.queued, Status.processing, Status.completed] ∨
    List.Sublist (runOps ops).2
        [Status.queued, Status.processing, Status.failed] := by
  have h0 : GoodTrace initState [] 0 := Or.inl ⟨rfl, rfl, rfl⟩
  have hg := stepOps_good ops h0 (by simpa using h)
  rcases hg with ⟨htr, -, -⟩ | ⟨j, -, htr, -⟩ | ⟨j, -, htr, -⟩ | ⟨j, -, htr, -⟩ |
    ⟨j, -, htr, -⟩ | ⟨j, -, htr, -⟩
  · left
    have h5 : (runOps ops).2 = [] := htr
    simp only [h5]; decide
  · left
    have h5 : (runOps ops).2 = [Status.queued] := htr
    simp only [h5]; decide
  · right
    have h5 : (runOps ops).2 = [Status.queued, Status.failed] := htr
    simp only [h5]; decide
  · left
    have h5 : (runOps ops).2 = [Status.queued, Status.processing] := htr
    simp only [h5]; decide
  · left
    have h5 : (runOps ops).2 =
        [Status.queued, Status.processing, Status.completed] := htr
    simp only [h5]; decide
  · right
    have h5 : (runOps ops).2 =
        [Status.queued, Status.processing, Status.failed] := htr
    simp only [h5]; decide

/-- Witness for C1's theorem at a concrete single-delivery run. -/
theorem job_status_trace_monotonic_witness :
    workerRunCount witnessOps ≤ 1 ∧
    (List.Sublist (runOps witnessOps).2
        [Status.queued, Status.processing, Status.completed] ∨
     List.Sublist (runOps witnessOps).2
        [Status.queued, Status.processing, Status.failed]) :=
  ⟨by decide, job_status_trace_monotonic witnessOps (by decide)⟩

/-- C1 counterexample: with the admissible at-least-once redelivery of the
worker task, the status history of one job is
`queued, processing, completed, processing, failed` — the completed record is
regressed to processing and overwritten — so the claim as stated is false. -/
theorem status_trace_regresses_on_redelivery :
    (runOps cexOps).2 = [Status.queued, Status.processing, Status.completed,
      Status.processing, Status.failed] ∧
    ¬ (List.Sublist (runOps cexOps).2
          [Status.queued, Status.processing, Status.completed] ∨
       List.Sublist (runOps cexOps).2
          [Status.queued, Status.processing, Status.failed]) := by
  constructor
  · decide
  · decide

/-- A single operation changes `analysisText` or `errorMessage` of the Job
row only when it leaves the row in a terminal status; and a row is only ever
created with those fields empty or already terminal. This holds for every
operation, redelivery included: the worker writes the fields only together
with its terminal status write, the submission handler inserts them empty
(or terminal on the compensation path), and the status endpoint's promotion
touches only the status. -/
theorem fields_change_only_terminal (s : SysState) (op : SysOp) :
    (∀ j0 j1, s.job = some j0 → (applyOp s op).1.job = some j1 →
      (j1.analysisText ≠ j0.analysisText ∨ j1.errorMessage ≠ j0.errorMessage) →
      (j1.status = Status.completed ∨ j1.status = Status.failed)) ∧
    (∀ j1, s.job = none → (applyOp s op).1.job = some j1 →
      (j1.analysisText ≠ none ∨ j1.errorMessage ≠ none) →
      (j1.status = Status.completed ∨ j1.status = Status.failed)) := by
  cases op with
  | submit p jobId now =>
      cases hjob : s.job with
      | some j =>
          constructor
          · intro j0 j1 h0 h1 hch
            simp only [applyOp, hjob] at h1
            have h2 := Option.some.inj h0
            subst h2
            have h3 := Option.some.inj h1
            subst h3
            rcases hch with h4 | h4 <;> exact absurd rfl h4
          · intro j1 h0 _ _
            exact Option.noConfusion h0
      | none =>
          constructor
          · intro j0 j1 h0 _ _
            exact Option.noConfusion h0
          · intro j1 _ h1 hch
            simp only [applyOp, hjob] at h1
            rcases analyze_document_spec p jobId now s with
              ⟨-, hj, -⟩ | ⟨-, jq, hjq, -, ha, he, -⟩ |
              ⟨-, -, jf, hjf, hstf, -, -, -⟩
            · rw [hj, hjob] at h1
              exact Option.noConfusion h1
            · rw [hjq] at h1
              have h2 := Option.some.inj h1
              subst h2
              rcases hch with h3 | h3
              · exact absurd ha h3
              · exact absurd he h3
            · rw [hjf] at h1
              have h2 := Option.some.inj h1
              subst h2
              exact Or.inr hstf
  | poll =>
      cases hjob : s.job with
      | none =>
          constructor
          · intro j0 j1 h0 _ _
            exact Option.noConfusion h0
          · intro j1 _ h1 _
            simp only [applyOp, hjob, get_job_status] at h1
            exact Option.noConfusion h1
      | some j =>
          constructor
          · intro j0 j1 h0 h1 hch
            have h2 := Option.some.inj h0
            subst h2
            simp only [applyOp, hjob] at h1
            by_cases hst : j.status = Status.queued
            · rcases get_job_status_queued
                  ⟨s.backendState, s.backendResult⟩ j.jobId j hst with hg | hg
              · rw [hg] at h1
                have h3 := Option.some.inj h1
                subst h3
                rcases hch with h4 | h4 <;> exact absurd rfl h4
              · rw [hg] at h1
                have h3 := Option.some.inj h1
                subst h3
                rcases hch with h4 | h4 <;> exact absurd rfl h4
            · rw [get_job_status_no_promote
                  ⟨s.backendState, s.backendResult⟩ j.jobId j hst] at h1
              have h3 := Option.some.inj h1
              subst h3
              rcases hch with h4 | h4 <;> exact absurd rfl h4
          · intro j1 h0 _ _
            exact Option.noConfusion h0
  | workerRun env =>
      cases hp : s.taskPayload with
      | none =>
          constructor
          · intro j0 j1 h0 h1 hch
            simp only [applyOp, hp] at h1
            rw [h0] at h1
            have h2 := Option.some.inj h1
            subst h2
            rcases hch with h3 | h3 <;> exact absurd rfl h3
          · intro j1 h0 h1 _
            simp only [applyOp, hp] at h1
            rw [h0] at h1
            exact Option.noConfusion h1
      | some payload =>
          constructor
          · intro j0 j1 h0 h1 hch
            simp only [applyOp, hp, h0] at h1
            obtain ⟨j', hj', -, hout⟩ := worker_task_spec env payload.query
              payload.filePath payload.originalFilename j0 s.fileExists
            rw [hj'] at h1
            have h2 := Option.some.inj h1
            subst h2
            rcases hout with ⟨hst', -⟩ | ⟨hst', -⟩
            · exact Or.inl hst'
            · exact Or.inr hst'
          · intro j1 h0 h1 _
            simp only [applyOp, hp, h0] at h1
            rw [(worker_task_none env payload.query payload.filePath
              payload.originalFilename s.fileExists).1] at h1
            exact Option.noConfusion h1
  | backendSet st res =>
      constructor
      · intro j0 j1 h0 h1 hch
        simp only [applyOp] at h1
        rw [h0] at h1
        have h2 := Option.some.inj h1
        subst h2
        rcases hch with h3 | h3 <;> exact absurd rfl h3
      · intro j1 h0 h1 _
        simp only [applyOp] at h1
        rw [h0] at h1
        exact Option.noConfusion h1

/-- C7 (amended): provided the worker task is delivered at most once for the
job, every reachable Job record has `analysisText` and `errorMessage`
mutually exclusive, and `completedAt` is set iff the status is terminal;
moreover — for every operation, redelivery included — `analysisText` and
`errorMessage` are each written only on a terminal transition: any step that
changes either field (or creates the row with either field set) leaves the
row in a terminal status. -/
theorem job_record_field_consistency (ops : List SysOp)
    (h : workerRunCount ops ≤ 1) (j : Job)
    (hj : (runOps ops).1.job = some j) :
    (¬ (j.analysisText ≠ none ∧ j.errorMessage ≠ none) ∧
      (j.completedAt ≠ none ↔
        (j.status = Status.completed ∨ j.status = Status.failed))) ∧
    (∀ s op, ∀ j0 j1, s.job = some j0 → (applyOp s op).1.job = some j1 →
      (j1.analysisText ≠ j0.analysisText ∨ j1.errorMessage ≠ j0.errorMessage) →
      (j1.status = Status.completed ∨ j1.status = Status.failed)) ∧
    (∀ s op, ∀ j1, s.job = none → (applyOp s op).1.job = some j1 →
      (j1.analysisText ≠ none ∨ j1.errorMessage ≠ none) →
      (j1.status = Status.completed ∨ j1.status = Status.failed)) := by
  refine ⟨?_, fun s op => (fields_change_only_terminal s op).1,
    fun s op => (fields_change_only_terminal s op).2⟩
  have h0 : GoodTrace initState [] 0 := Or.inl ⟨rfl, rfl, rfl⟩
  have hg := stepOps_good ops h0 (by simpa using h)
  have hj' : (stepOps initState ops).1.job = some j := hj
  rcases hg with ⟨-, hjob, -⟩ | ⟨j', hjob, -, hst, ha, he, hcm⟩ |
    ⟨j', hjob, -, hst, ha, he, hcm, -⟩ | ⟨j', hjob, -, hst, ha, he, hcm⟩ |
    ⟨j', hjob, -, hst, ha, he, hcm, -⟩ | ⟨j', hjob, -, hst, ha, he, hcm, -⟩ <;>
    rw [hjob] at hj'
  · exact Option.noConfusion hj'
  all_goals injection hj' with hj2
  all_goals subst hj2
  all_goals exact ⟨by simp [ha, he], by simp [hst, hcm]⟩

/-- Witness for C7's theorem at a concrete single-delivery run. -/
theorem job_record_field_consistency_witness :
    workerRunCount witnessOps ≤ 1 ∧ (runOps witnessOps).1.job = some witnessJob ∧
    (¬ (witnessJob.analysisText ≠ none ∧ witnessJob.errorMessage ≠ none) ∧
      (witnessJob.completedAt ≠ none ↔
        (witnessJob.status = Status.completed ∨
         witnessJob.status = Status.failed))) :=
  ⟨by decide, by decide,
   (job_record_field_consistency witnessOps (by decide) witnessJob
     (by decide)).1⟩

/-- C7 counterexample: after the admissible redelivery in `cexOps`, the
reachable record has `analysisText` and `errorMessage` both set, so the
mutual-exclusion claim as stated is false. -/
theorem result_and_error_both_set :
    (runOps cexOps).1.job = some cexFinalJob ∧
    cexFinalJob.analysisText ≠ none ∧ cexFinalJob.errorMessage ≠ none := by
  refine ⟨by decide, by decide, by decide⟩

/-- C2 counterexample: for a failed row whose stored `errorMessage` is the
empty string, the endpoint's error field falls back to
`str(result.result)` from the Task Backend — two different backend results
give two different responses for the same stored record, so the response
does not depend only on the Job record. -/
theorem terminal_response_consults_backend :
    cexFailedJob.status = Status.failed ∧
    (get_job_status { backendState := .SUCCESS, backendResult := "backend-a" }
        "j2" (some cexFailedJob)).1 ≠
      (get_job_status { backendState := .SUCCESS, backendResult := "backend-b" }
        "j2" (some cexFailedJob)).1 := by
  exact ⟨rfl, by decide⟩

/-- C2 (amended): for a terminal row the status endpoint returns the stored
record unchanged (no promotion, no writes) and the stored status verbatim; a
completed row's response is built only from the stored fields, independent
of the Task Backend; a failed row's response carries the stored
`errorMessage` verbatim — independent of the backend — whenever that message
is non-empty, and only falls back to the backend's result when the stored
message is absent or empty. -/
theorem terminal_status_verbatim (env : StatusEnv) (jobId : String) (j : Job)
    (hterm : j.status = Status.completed ∨ j.status = Status.failed) :
    (get_job_status env jobId (some j)).2.1 = some j ∧
    (get_job_status env jobId (some j)).2.2 = [] ∧
    (j.status = Status.completed →
      (get_job_status env jobId (some j)).1 =
        .completedResponse jobId j.query j.analysisText j.fileName j.userId) ∧
    (∀ m, j.status = Status.failed → j.errorMessage = some m → m ≠ "" →
      (get_job_status env jobId (some j)).1 =
        .failedResponse jobId m j.userId) := by
  rcases hterm with hst | hst
  · refine ⟨by simp [get_job_status, hst], by simp [get_job_status, hst],
      fun _ => by simp [get_job_status, hst], ?_⟩
    intro m hf
    rw [hst] at hf
    exact absurd hf (by simp)
  · refine ⟨by simp [get_job_status, hst], by simp [get_job_status, hst],
      ?_, ?_⟩
    · intro hcomp
      rw [hst] at hcomp
      exact absurd hcomp (by simp)
    · intro m hf hm hne
      simp [get_job_status, hst, hm, hne]


/-- Witness for C2's amended theorem at a concrete completed row. -/
theorem terminal_status_verbatim_witness :
    (get_job_status ⟨.PENDING, ""⟩ "j9" (some c2WitnessJob)).2.1 =
        some c2WitnessJob ∧
    (get_job_status ⟨.PENDING, ""⟩ "j9" (some c2WitnessJob)).2.2 = [] ∧
    (get_job_status ⟨.PENDING, ""⟩ "j9" (some c2WitnessJob)).1 =
      .completedResponse "j9" c2WitnessJob.query c2WitnessJob.analysisText
        c2WitnessJob.fileName c2WitnessJob.userId :=
  ⟨(terminal_status_verbatim ⟨.PENDING, ""⟩ "j9" c2WitnessJob (Or.inl rfl)).1,
   (terminal_status_verbatim ⟨.PENDING, ""⟩ "j9" c2WitnessJob (Or.inl rfl)).2.1,
   (terminal_status_verbatim ⟨.PENDING, ""⟩ "j9" c2WitnessJob (Or.inl rfl)).2.2.1
     rfl⟩

/-- C3: the Worker has no terminal-status guard. Redelivering the task of
the completed job `c3CompletedJob` (whose artifact the first run already
deleted) rewrites the record — the status is written to `processing` and
then `failed`, a new `errorMessage` and `completedAt` are persisted and the
old `analysisText` is left in place — instead of leaving the record
unchanged. -/
theorem redelivery_rewrites_terminal_job :
    (analyze_financial_document_task c3Env "q" "data/uploads/j3_a.pdf" "a.pdf"
        (some c3CompletedJob) false).job =
      some { c3CompletedJob with
               status := Status.failed
               errorMessage := some "Uploaded file not found: data/uploads/j3_a.pdf"
               completedAt := some 20 } ∧
    (analyze_financial_document_task c3Env "q" "data/uploads/j3_a.pdf" "a.pdf"
        (some c3CompletedJob) false).statusWrites =
      [Status.processing, Status.failed] := by
  exact ⟨by decide, by decide⟩

/-- C4: when the Job row was persisted (all request validations passed) and
the Celery enqueue raises, the handler deletes the staged artifact, marks
the job `failed` with a message describing the enqueue failure, sets
`completedAt`, returns a 500, and leaves no enqueued task — never a queued
row without a task. -/
theorem enqueue_failure_compensation (p : SubmitParams) (jobId : String)
    (now : Nat) (s : SysState) (msg : String)
    (h1 : p.filename ≠ "") (h2 : pyEndsWith (pyLower p.filename) ".pdf" = true)
    (h3 : p.keyPresent = true) (h4 : p.fileSize ≠ 0)
    (h5 : invalidEmailFormat p.userEmail = false)
    (h6 : p.enqueue = .error msg) (h7 : s.taskPayload = none) :
    (analyze_document p jobId now s).1 =
      .httpError 500 ("Error queuing analysis job: " ++ msg) ∧
    (∃ j, (analyze_document p jobId now s).2.1.job = some j ∧
      j.status = Status.failed ∧
      j.errorMessage = some ("Queue error: " ++ msg) ∧
      j.completedAt = some now) ∧
    (analyze_document p jobId now s).2.1.fileExists = false ∧
    (analyze_document p jobId now s).2.1.taskPayload = none := by
  have h2' : ¬ pyEndsWith (pyLower p.filename) ".pdf" = false := by simp [h2]
  have h3' : ¬ p.keyPresent = false := by simp [h3]
  have h5' : ¬ invalidEmailFormat p.userEmail = true := by simp [h5]
  simp only [analyze_document, if_neg h1, if_neg h2', if_neg h3', if_neg h4,
    if_neg h5', h6]
  exact ⟨trivial, ⟨_, rfl, rfl, rfl, rfl⟩, trivial, h7⟩


/-- Witness for C4's theorem at a concrete failing enqueue. -/
theorem enqueue_failure_compensation_witness :
    (analyze_document c4Params "j4" 7 initState).1 =
      .httpError 500 ("Error queuing analysis job: " ++ "broker down") ∧
    (∃ j, (analyze_document c4Params "j4" 7 initState).2.1.job = some j ∧
      j.status = Status.failed ∧
      j.errorMessage = some ("Queue error: " ++ "broker down") ∧
      j.completedAt = some 7) ∧
    (analyze_document c4Params "j4" 7 initState).2.1.fileExists = false ∧
    (analyze_document c4Params "j4" 7 initState).2.1.taskPayload = none :=
  enqueue_failure_compensation c4Params "j4" 7 initState "broker down"
    (by decide) (by decide) rfl (by decide) (by decide) rfl rfl

/-- The cleanup block never lets an error escape. -/
theorem artifactCleanup_no_raise (a b : Bool) :
    (artifactCleanup a b).2 = none := by
  cases a <;> cases b <;> rfl

/-- When `unlink` does not raise, the artifact is gone after cleanup. -/
theorem artifactCleanup_deletes (a : Bool) :
    (artifactCleanup a false).1 = false := by
  cases a <;> rfl

/-- C5: the cleanup finalizer runs exactly once per worker invocation,
whatever the outcome of the body (success, any raised error — cancellation
included — since both branches of the task run it); it never lets an error
escape the Worker; cleaning up an already-missing artifact is a no-op; and
when `unlink` does not fail the artifact is gone afterwards. -/
theorem cleanup_exactly_once (env : WorkerEnv) (q fp ofn : String)
    (job : Option Job) (fe : Bool) :
    (analyze_financial_document_task env q fp ofn job fe).cleanupRuns = 1 ∧
    (analyze_financial_document_task env q fp ofn job fe).cleanupError = none ∧
    (analyze_financial_document_task env q fp ofn job fe).fileExists =
      (artifactCleanup fe env.unlinkRaises).1 ∧
    (∀ b, artifactCleanup false b = (false, none)) ∧
    (env.unlinkRaises = false →
      (analyze_financial_document_task env q fp ofn job fe).fileExists = false) := by
  cases hb : workerBody env fp fe <;>
    exact ⟨by simp [analyze_financial_document_task, hb],
      by simp [analyze_financial_document_task, hb, artifactCleanup_no_raise],
      by simp [analyze_financial_document_task, hb],
      fun b => by cases b <;> rfl,
      fun hu => by
        simp [analyze_financial_document_task, hb, hu, artifactCleanup_deletes]⟩

/-- Witness for C5's theorem at a concrete worker run. -/
theorem cleanup_exactly_once_witness :
    (analyze_financial_document_task cexWorkerEnv1 "q" "data/uploads/j1_f.pdf"
        "f.pdf" none true).cleanupRuns = 1 ∧
    (analyze_financial_document_task cexWorkerEnv1 "q" "data/uploads/j1_f.pdf"
        "f.pdf" none true).cleanupError = none ∧
    artifactCleanup false true = (false, none) ∧
    (analyze_financial_document_task cexWorkerEnv1 "q" "data/uploads/j1_f.pdf"
        "f.pdf" none true).fileExists = false :=
  ⟨(cleanup_exactly_once cexWorkerEnv1 "q" "data/uploads/j1_f.pdf" "f.pdf"
      none true).1,
   (cleanup_exactly_once cexWorkerEnv1 "q" "data/uploads/j1_f.pdf" "f.pdf"
      none true).2.1,
   (cleanup_exactly_once cexWorkerEnv1 "q" "data/uploads/j1_f.pdf" "f.pdf"
      none true).2.2.2.1 true,
   (cleanup_exactly_once cexWorkerEnv1 "q" "data/uploads/j1_f.pdf" "f.pdf"
      none true).2.2.2.2 rfl⟩

/-- C6: on an existing row the worker persists exactly the outcome of the
run: a successful analysis is stored as `analysisText` with `errorMessage`
cleared and status `completed`; a missing key, a missing artifact, or an
analysis error is stored verbatim as `errorMessage` with status `failed`;
`completedAt` is set in every terminal case. -/
theorem worker_outcome_persistence (env : WorkerEnv) (q fp ofn : String)
    (j : Job) (fe : Bool) :
    (env.keyPresent = true → fe = true → ∀ a, env.crewResult = .ok a →
      (analyze_financial_document_task env q fp ofn (some j) fe).job =
        some { j with
                 status := Status.completed
                 analysisText := some a
                 errorMessage := none
                 completedAt := some env.now }) ∧
    (env.keyPresent = false →
      (analyze_financial_document_task env q fp ofn (some j) fe).job =
        some { j with
                 status := Status.failed
                 errorMessage := some "Missing OPENAI_API_KEY environment variable"
                 completedAt := some env.now }) ∧
    (env.keyPresent = true → fe = false →
      (analyze_financial_document_task env q fp ofn (some j) fe).job =
        some { j with
                 status := Status.failed
                 errorMessage := some ("Uploaded file not found: " ++ fp)
                 completedAt := some env.now }) ∧
    (env.keyPresent = true → fe = true → ∀ m, env.crewResult = .error m →
      (analyze_financial_document_task env q fp ofn (some j) fe).job =
        some { j with
                 status := Status.failed
                 errorMessage := some m
                 completedAt := some env.now }) := by
  refine ⟨?_, ?_, ?_, ?_⟩
  · intro hk hf a hc
    have hb : workerBody env fp fe = .ok a := by simp [workerBody, hk, hf, hc]
    simp only [analyze_financial_document_task, hb]
    rfl
  · intro hk
    have hb : workerBody env fp fe =
        .error "Missing OPENAI_API_KEY environment variable" := by
      simp [workerBody, hk]
    simp only [analyze_financial_document_task, hb]
    rfl
  · intro hk hf
    have hb : workerBody env fp fe =
        .error ("Uploaded file not found: " ++ fp) := by
      simp [workerBody, hk, hf]
    simp only [analyze_financial_document_task, hb]
    rfl
  · intro hk hf m hc
    have hb : workerBody env fp fe = .error m := by
      simp [workerBody, hk, hf, hc]
    simp only [analyze_financial_document_task, hb]
    rfl

/-- Witness for C6's theorem at a concrete successful run. -/
theorem worker_outcome_persistence_witness :
    (analyze_financial_document_task cexWorkerEnv1 "q" "data/uploads/j1_f.pdf"
        "f.pdf" (some witnessJob) true).job =
      some { witnessJob with
               status := Status.completed
               analysisText := some "fine"
               errorMessage := none
               completedAt := some cexWorkerEnv1.now } :=
  (worker_outcome_persistence cexWorkerEnv1 "q" "data/uploads/j1_f.pdf" "f.pdf"
    witnessJob true).1 rfl rfl "fine" rfl

/-- `s or None` never yields the empty string. -/
theorem pyStrOrNone_ne_empty {s t : String} (h : pyStrOrNone s = some t) :
    t ≠ "" := by
  unfold pyStrOrNone at h
  split at h
  · exact Option.noConfusion h
  · next hne => injection h with h2; subst h2; exact hne

/-- A normalized name is never the empty string. -/
theorem normalized_name_ne_empty {name : Option String} {n : String}
    (h : normalized_name name = some n) : n ≠ "" :=
  pyStrOrNone_ne_empty h

/-- One call of `_get_or_create_user` whose email normalizes to `some e`:
either the email is found and the stored falsy name is filled in, or it is
found and left alone, or a fresh row is appended. -/
theorem get_or_create_user_spec (users : List User) (name email : Option String)
    (e : String) (he : normalized_email email = some e) :
    (∃ u, users.find? (fun u => u.email = some e) = some u ∧
      ((normalized_name name).isSome && optStrFalsy u.name) = true ∧
      _get_or_create_user users name email =
        (some { u with name := normalized_name name },
         users.map fun v =>
           if v.id = u.id then { v with name := normalized_name name } else v))
    ∨ (∃ u, users.find? (fun u => u.email = some e) = some u ∧
      ((normalized_name name).isSome && optStrFalsy u.name) = false ∧
      _get_or_create_user users name email = (some u, users))
    ∨ (users.find? (fun u => u.email = some e) = none ∧
      _get_or_create_user users name email =
        (some { id := nextUserId users, name := normalized_name name,
                email := some e },
         users ++ [{ id := nextUserId users, name := normalized_name name,
                     email := some e }])) := by
  unfold _get_or_create_user
  rw [he]
  simp only [Option.isNone_some, Bool.false_and, Bool.false_eq_true, if_false]
  cases hf : users.find? (fun u => u.email = some e) with
  | some u =>
      cases hcond : ((normalized_name name).isSome && optStrFalsy u.name) with
      | true =>
          refine Or.inl ⟨u, rfl, hcond, ?_⟩
          simp only [hcond, if_true]
      | false =>
          refine Or.inr (Or.inl ⟨u, rfl, hcond, ?_⟩)
          simp only [hcond, Bool.false_eq_true, if_false]
  | none => exact Or.inr (Or.inr ⟨rfl, rfl⟩)


/-- C8: two submissions whose owner emails normalize to the same address
resolve to one and the same User row — the second call finds the row the
first call resolved or created, creates no second row — and once the stored
name is non-empty it survives the second submission unchanged (the first
non-empty name wins). -/
theorem same_email_single_user (users : List User)
    (name1 email1 name2 email2 : Option String) (e : String)
    (h1 : normalized_email email1 = some e)
    (h2 : normalized_email email2 = some e) :
    ∃ v1 users1 v2 users2,
      _get_or_create_user users name1 email1 = (some v1, users1) ∧
      _get_or_create_user users1 name2 email2 = (some v2, users2) ∧
      v2.id = v1.id ∧ v2.email = v1.email ∧
      users2.length = users1.length ∧
      (∀ n, v1.name = some n → n ≠ "" → v2.name = v1.name) := by
  rcases get_or_create_user_spec users name1 email1 e h1 with
    ⟨u, hf, hcond, heq⟩ | ⟨u, hf, hcond, heq⟩ | ⟨hf, heq⟩
  · -- found; the first call fills in the name
    cases hn1 : normalized_name name1 with
    | none => rw [hn1] at hcond; simp at hcond
    | some n1 =>
    have hne1 : n1 ≠ "" := normalized_name_ne_empty hn1
    have hfind2 : (users.map fun v =>
          if v.id = u.id then { v with name := normalized_name name1 } else v).find?
          (fun w => w.email = some e) =
        some { u with name := normalized_name name1 } := by
      rw [List.find?_map]
      have hPf : ((fun w : User => decide (w.email = some e)) ∘ fun v =>
            if v.id = u.id then { v with name := normalized_name name1 } else v) =
          fun v : User => decide (v.email = some e) := by
        funext v
        by_cases hv : v.id = u.id <;> simp [hv]
      rw [hPf, hf]
      simp
    rcases get_or_create_user_spec
        (users.map fun v =>
          if v.id = u.id then { v with name := normalized_name name1 } else v)
        name2 email2 e h2 with
      ⟨u2, hf2, hcond2, heq2⟩ | ⟨u2, hf2, hcond2, heq2⟩ | ⟨hf2, heq2⟩
    · rw [hfind2] at hf2
      injection hf2 with hu2
      subst hu2
      simp [optStrFalsy, hn1, hne1] at hcond2
    · rw [hfind2] at hf2
      injection hf2 with hu2
      subst hu2
      exact ⟨{ u with name := normalized_name name1 }, _,
        { u with name := normalized_name name1 }, _, heq, heq2, rfl, rfl, rfl,
        fun n hn hne => rfl⟩
    · rw [hfind2] at hf2
      exact Option.noConfusion hf2
  · -- found; the first call leaves the row alone
    rcases get_or_create_user_spec users name2 email2 e h2 with
      ⟨u2, hf2, hcond2, heq2⟩ | ⟨u2, hf2, hcond2, heq2⟩ | ⟨hf2, heq2⟩
    · rw [hf] at hf2
      injection hf2 with hu2
      subst hu2
      refine ⟨u, users, { u with name := normalized_name name2 }, _,
        heq, heq2, rfl, rfl, by simp, ?_⟩
      intro n hn hne
      rw [hn] at hcond2
      simp [optStrFalsy, hne] at hcond2
    · rw [hf] at hf2
      injection hf2 with hu2
      subst hu2
      exact ⟨u, users, u, users, heq, heq2, rfl, rfl, rfl, fun n hn hne => rfl⟩
    · rw [hf] at hf2
      exact Option.noConfusion hf2
  · -- not found; the first call creates the row
    have hfind2 : (users ++
          [(⟨nextUserId users, normalized_name name1, some e⟩ : User)]).find?
          (fun w => w.email = some e) =
        some (⟨nextUserId users, normalized_name name1, some e⟩ : User) := by
      rw [List.find?_append, hf]
      simp
    rcases get_or_create_user_spec
        (users ++ [(⟨nextUserId users, normalized_name name1, some e⟩ : User)])
        name2 email2 e h2 with
      ⟨u2, hf2, hcond2, heq2⟩ | ⟨u2, hf2, hcond2, heq2⟩ | ⟨hf2, heq2⟩
    · rw [hfind2] at hf2
      injection hf2 with hu2
      subst hu2
      refine ⟨_, _, _, _, heq, heq2, rfl, rfl, by simp, ?_⟩
      intro n hn hne
      have hname : normalized_name name1 = some n := hn
      rw [show ((⟨nextUserId users, normalized_name name1, some e⟩ : User)).name =
            normalized_name name1 from rfl, hname] at hcond2
      simp [optStrFalsy, hne] at hcond2
    · rw [hfind2] at hf2
      injection hf2 with hu2
      subst hu2
      exact ⟨_, _, _, _, heq, heq2, rfl, rfl, rfl, fun n hn hne => rfl⟩
    · rw [hfind2] at hf2
      exact Option.noConfusion hf2

/-- Witness for C8's theorem: `Alice` submits `A@x.com `, `Bob` later
submits `a@x.com`. -/
theorem same_email_single_user_witness :
    normalized_email (some "A@x.com ") = some "a@x.com" ∧
    normalized_email (some "a@x.com") = some "a@x.com" ∧
    (∃ v1 users1 v2 users2,
      _get_or_create_user [] (some "Alice") (some "A@x.com ") =
        (some v1, users1) ∧
      _get_or_create_user users1 (some "Bob") (some "a@x.com") =
        (some v2, users2) ∧
      v2.id = v1.id ∧ v2.email = v1.email ∧
      users2.length = users1.length ∧
      (∀ n, v1.name = some n → n ≠ "" → v2.name = v1.name)) :=
  ⟨by decide, by decide,
   same_email_single_user [] (some "Alice") (some "A@x.com ") (some "Bob")
     (some "a@x.com") "a@x.com" (by decide) (by decide)⟩

/-- C9: a submission with a non-empty PDF payload whose provided owner email
is non-empty and contains no `@` fails with a 400 client error, creates no
Job row, and leaves the already-staged artifact in place: the email-format
check runs only after the upload is copied to disk, and the
`except HTTPException: raise` path performs no cleanup. -/
theorem invalid_email_keeps_artifact (p : SubmitParams) (jobId : String)
    (now : Nat) (s : SysState) (e : String)
    (h1 : p.filename ≠ "") (h2 : pyEndsWith (pyLower p.filename) ".pdf" = true)
    (h3 : p.keyPresent = true) (h4 : p.fileSize ≠ 0)
    (h5 : p.userEmail = some e) (h6 : e ≠ "") (h7 : pyContains e '@' = false)
    (hjob : s.job = none) :
    analyze_document p jobId now s =
      (.httpError 400 "Invalid user_email format",
        { s with fileExists := true }, []) ∧
    (analyze_document p jobId now s).2.1.job = none ∧
    (analyze_document p jobId now s).2.1.fileExists = true := by
  have hinv : invalidEmailFormat p.userEmail = true := by
    rw [h5]
    simp [invalidEmailFormat, h6, h7]
  have h2' : ¬ pyEndsWith (pyLower p.filename) ".pdf" = false := by simp [h2]
  have h3' : ¬ p.keyPresent = false := by simp [h3]
  have hmain : analyze_document p jobId now s =
      (.httpError 400 "Invalid user_email format",
        { s with fileExists := true }, []) := by
    simp only [analyze_document, if_neg h1, if_neg h2', if_neg h3', if_neg h4,
      hinv, if_true]
  exact ⟨hmain, by rw [hmain]; exact hjob, by rw [hmain]⟩


/-- Witness for C9's theorem at a concrete malformed email. -/
theorem invalid_email_keeps_artifact_witness :
    analyze_document c9Params "j5" 9 initState =
      (.httpError 400 "Invalid user_email format",
        { initState with fileExists := true }, []) ∧
    (analyze_document c9Params "j5" 9 initState).2.1.job = none ∧
    (analyze_document c9Params "j5" 9 initState).2.1.fileExists = true :=
  invalid_email_keeps_artifact c9Params "j5" 9 initState "ann.x.com"
    (by decide) (by decide) rfl (by decide) rfl (by decide) (by decide) rfl

/-- The submission handler either leaves the row and the task payload
untouched, or stores the resolved query on the row it inserts and (when it
enqueues) in the task payload. -/
theorem analyze_document_query (p : SubmitParams) (jobId : String) (now : Nat)
    (s : SysState) :
    ((analyze_document p jobId now s).2.1.job = s.job ∧
      (analyze_document p jobId now s).2.1.taskPayload = s.taskPayload)
    ∨ ((∃ j, (analyze_document p jobId now s).2.1.job = some j ∧
          j.query = _resolve_query (some p.query)) ∧
        ((analyze_document p jobId now s).2.1.taskPayload = s.taskPayload ∨
          ∃ pl, (analyze_document p jobId now s).2.1.taskPayload = some pl ∧
            pl.query = _resolve_query (some p.query))) := by
  unfold analyze_document
  split
  · exact Or.inl ⟨rfl, rfl⟩
  · split
    · exact Or.inl ⟨rfl, rfl⟩
    · split
      · exact Or.inl ⟨rfl, rfl⟩
      · split
        · exact Or.inl ⟨rfl, rfl⟩
        · split
          · exact Or.inl ⟨rfl, rfl⟩
          · cases hq : p.enqueue with
            | ok u => exact Or.inr ⟨⟨_, rfl, rfl⟩, Or.inr ⟨_, rfl, rfl⟩⟩
            | error msg => exact Or.inr ⟨⟨_, rfl, rfl⟩, Or.inl rfl⟩

/-- C10: the query stored on the Job row and passed in the worker task's
kwargs is never empty: an absent (`None`), empty, or whitespace-only query
falls back to `DEFAULT_QUERY`; otherwise the stripped provided query is
used. -/
theorem resolved_query_nonempty :
    (∀ q, _resolve_query q ≠ "") ∧
    _resolve_query none = DEFAULT_QUERY ∧
    (∀ q, pyStrip q = "" → _resolve_query (some q) = DEFAULT_QUERY) ∧
    (∀ q, pyStrip q ≠ "" → _resolve_query (some q) = pyStrip q) ∧
    (∀ p jobId now s, s.job = none → s.taskPayload = none →
      (∀ j, (analyze_document p jobId now s).2.1.job = some j →
        j.query = _resolve_query (some p.query)) ∧
      (∀ pl, (analyze_document p jobId now s).2.1.taskPayload = some pl →
        pl.query = _resolve_query (some p.query))) := by
  refine ⟨?_, by decide, ?_, ?_, ?_⟩
  · intro q
    simp only [_resolve_query]
    split
    · decide
    · next hne => exact hne
  · intro q hq
    by_cases hq0 : q = ""
    · subst hq0; decide
    · simp [_resolve_query, hq0, hq]
  · intro q hq
    by_cases hq0 : q = ""
    · subst hq0; exact absurd (by decide : pyStrip "" = "") hq
    · simp [_resolve_query, hq0, hq]
  · intro p jobId now s hjob hpl
    rcases analyze_document_query p jobId now s with ⟨hj, hp⟩ | ⟨⟨j0, hj0, hq0⟩, hrest⟩
    · constructor
      · intro j hj2
        rw [hj, hjob] at hj2
        exact Option.noConfusion hj2
      · intro pl hpl2
        rw [hp, hpl] at hpl2
        exact Option.noConfusion hpl2
    · constructor
      · intro j hj2
        rw [hj0] at hj2
        injection hj2 with hj3
        subst hj3
        exact hq0
      · intro pl hpl2
        rcases hrest with hsame | ⟨pl0, hpl0, hq1⟩
        · rw [hsame, hpl] at hpl2
          exact Option.noConfusion hpl2
        · rw [hpl0] at hpl2
          injection hpl2 with hpl3
          subst hpl3
          exact hq1

/-- Witness for C10's theorem at concrete queries and a concrete accepted
submission. -/
theorem resolved_query_nonempty_witness :
    _resolve_query (some "   ") ≠ "" ∧
    _resolve_query (some "   ") = DEFAULT_QUERY ∧
    _resolve_query (some " top risks ") = pyStrip " top risks " ∧
    ((analyze_document cexSubmitParams "j1" 0 initState).2.1.job = some c10Job ∧
      c10Job.query = _resolve_query (some cexSubmitParams.query)) :=
  ⟨resolved_query_nonempty.1 (some "   "),
   resolved_query_nonempty.2.2.1 "   " (by decide),
   resolved_query_nonempty.2.2.2.1 " top risks " (by decide),
   by decide,
   (resolved_query_nonempty.2.2.2.2 cexSubmitParams "j1" 0 initState rfl rfl).1
     c10Job (by decide)⟩
